import Mathlib

/-!
Shallow embedding of the TaskSync backend (src/backend/server.py): password
hashing helpers, JWT issue/verify, the authentication gate, the auth routes
(register, login) and the task routes (create/list/get/update/delete), over an
explicit in-memory model of the two MongoDB collections (`users`, `tasks`).

Machine-level conventions: datetimes are modelled as `Nat` timestamps (seconds),
MongoDB ObjectIds by their 24-hex-character string form, and the bcrypt
primitive (passlib's `pwd_context`) is an abstract parameter `bhash`/`bverify`
since it is an external library; the 72-byte truncation logic around it is
modelled from the source.
-/

deriving instance DecidableEq for Except

namespace TaskSync

/-- HTTP error raised by a handler: `HTTPException(status_code, detail)`. -/
structure HttpError where
  status : Nat
  detail : String
deriving Repr, DecidableEq

/-- Byte length of a character under UTF-8, models Python's `len(c.encode('utf-8'))`
for a single code point. -/
def charUtf8Size (c : Char) : Nat :=
  if c.val ≤ 0x7F then 1
  else if c.val ≤ 0x7FF then 2
  else if c.val ≤ 0xFFFF then 3
  else 4

/-- Models Python's `len(s.encode('utf-8'))`. -/
def utf8Len (s : String) : Nat :=
  s.data.foldl (fun n c => n + charUtf8Size c) 0

/-- Python's character slice `s[:n]` (first `n` characters, NOT bytes). -/
def pySlice (s : String) (n : Nat) : String :=
  String.mk (s.data.take n)

/-- `verify_password` (server.py lines 97-101): truncates the plain password to
72 CHARACTERS whenever its UTF-8 byte length exceeds 72, then calls the bcrypt
verifier. `bverify` abstracts `pwd_context.verify`. -/
def verify_password (bverify : String → String → Bool)
    (plain_password hashed_password : String) : Bool :=
  let plain_password :=
    if 72 < utf8Len plain_password then pySlice plain_password 72 else plain_password
  bverify plain_password hashed_password

/-- `get_password_hash` (server.py lines 103-107): same 72-character truncation,
then the bcrypt hash. `bhash` abstracts `pwd_context.hash`. -/
def get_password_hash (bhash : String → String) (password : String) : String :=
  let password :=
    if 72 < utf8Len password then pySlice password 72 else password
  bhash password

/-- `JWT_ACCESS_TOKEN_EXPIRE_MINUTES` environment default (server.py line 84). -/
def JWT_ACCESS_TOKEN_EXPIRE_MINUTES : Nat := 30

/-- Claims carried by a token: the `sub` entry of the data dict (a user id
string, possibly absent) and the `exp` timestamp added by `create_access_token`. -/
structure TokenPayload where
  sub : Option String
  exp : Nat
deriving Repr, DecidableEq

/-- A token produced by `jwt.encode(payload, key, ...)`: the payload together
with the symmetric key it was signed with. `jwt.decode` with the same key
recovers the payload; any other key fails the signature check. -/
structure SignedToken where
  payload : TokenPayload
  key : String
deriving Repr, DecidableEq

/-- `create_access_token` (server.py lines 109-117): expiry is `now + delta`
when a delta is supplied, else `now + 15 minutes`; the data dict is `{sub}`. -/
def create_access_token (sub : Option String) (expires_delta : Option Nat)
    (now : Nat) (key : String) : SignedToken :=
  { payload := { sub := sub, exp := now + expires_delta.getD (15 * 60) }
    key := key }

/-- Outcome of `jwt.decode(token, key, ...)`: the payload, or a `PyJWTError`
(bad signature and expired token are indistinguishable to the caller). -/
inductive DecodeResult where
  | ok (p : TokenPayload)
  | error
deriving Repr, DecidableEq

/-- `jwt.decode` as used in `get_current_user`: signature check (key equality in
this model) and expiry check. PyJWT treats a token as expired when
`exp <= now`, so the token is accepted exactly when `now < exp`. -/
def jwtDecode (tok : SignedToken) (key : String) (now : Nat) : DecodeResult :=
  if tok.key == key then
    if tok.payload.exp ≤ now then .error else .ok tok.payload
  else .error

/-- A document of the `users` collection: generated ObjectId (string form),
email, name, bcrypt hash and creation time (register, server.py lines 185-190). -/
structure UserDoc where
  oid : String
  email : String
  name : String
  hashed_password : String
  created_at : Nat
deriving Repr, DecidableEq

/-- `bson.ObjectId(s)` succeeds on a string exactly when it is 24 hexadecimal
characters; otherwise it raises `InvalidId`. -/
def isValidObjectId (s : String) : Bool :=
  s.length == 24 &&
    s.data.all (fun c => c.isDigit || ('a' ≤ c && c ≤ 'f') || ('A' ≤ c && c ≤ 'F'))

/-- Outcome of the authentication gate `get_current_user`: the resolved user
document, an `HTTPException`, or an exception that escapes the handler
(surfaced by the framework as a 500 server error). -/
inductive GateResult where
  | ok (u : UserDoc)
  | httpError (e : HttpError)
  | unhandledException
deriving Repr, DecidableEq

/-- `get_current_user` (server.py lines 119-131). Inside the `try`: decode the
token (`PyJWTError` → 401 "Invalid token") and reject a missing `sub` (the 401
raised there is NOT caught, the `except` clause only catches `PyJWTError`).
Outside the `try`: `ObjectId(user_id)` — on a non-ObjectId-shaped subject the
`InvalidId` exception escapes the handler — then the `users` lookup, `None`
mapping to 401 "User not found". -/
def get_current_user (tok : SignedToken) (key : String) (now : Nat)
    (users : List UserDoc) : GateResult :=
  match jwtDecode tok key now with
  | .error => .httpError ⟨401, "Invalid token"⟩
  | .ok payload =>
    match payload.sub with
    | none => .httpError ⟨401, "Invalid token"⟩
    | some user_id =>
      if isValidObjectId user_id then
        match users.find? (fun u => u.oid == user_id) with
        | none => .httpError ⟨401, "User not found"⟩
        | some u => .ok u
      else .unhandledException

/-- Request body of `POST /auth/register` (`UserCreate`). -/
structure UserCreate where
  email : String
  password : String
  name : String
deriving Repr, DecidableEq

/-- Request body of `POST /auth/login` (`UserLogin`). -/
structure UserLogin where
  email : String
  password : String
deriving Repr, DecidableEq

/-- `register` (server.py lines 176-209): if a user with the same email exists,
raise 400 "Email already registered" (before any write, so the collection is
returned unchanged); otherwise hash the password, insert the document, and issue
a token with the new id as subject and the configured 30-minute TTL. Returns
the handler outcome paired with the post-request `users` collection. -/
def register (bhash : String → String) (req : UserCreate) (newOid : String)
    (now : Nat) (key : String) (db : List UserDoc) :
    Except HttpError (SignedToken × UserDoc) × List UserDoc :=
  match db.find? (fun u => u.email == req.email) with
  | some _ => (.error ⟨400, "Email already registered"⟩, db)
  | none =>
    let doc : UserDoc :=
      { oid := newOid, email := req.email, name := req.name
        hashed_password := get_password_hash bhash req.password, created_at := now }
    let tok := create_access_token (some newOid)
      (some (JWT_ACCESS_TOKEN_EXPIRE_MINUTES * 60)) now key
    (.ok (tok, doc), db ++ [doc])

/-- `login` (server.py lines 211-230): look up by email; if absent OR the
password check fails, raise the single 401 "Invalid email or password"
(short-circuit `if not user or not verify_password(...)`); on success issue a
token with the stored user's id as subject. -/
def login (bverify : String → String → Bool) (req : UserLogin)
    (now : Nat) (key : String) (db : List UserDoc) :
    Except HttpError (SignedToken × UserDoc) :=
  match db.find? (fun u => u.email == req.email) with
  | none => .error ⟨401, "Invalid email or password"⟩
  | some u =>
    if verify_password bverify req.password u.hashed_password then
      .ok (create_access_token (some u.oid)
        (some (JWT_ACCESS_TOKEN_EXPIRE_MINUTES * 60)) now key, u)
    else .error ⟨401, "Invalid email or password"⟩

/-- A document of the `tasks` collection (create_task, server.py lines 244-252):
generated ObjectId (string form), title, description, optional due date,
completion flag, both timestamps, and the owning user's id string. -/
structure TaskDoc where
  oid : String
  title : String
  description : String
  due_date : Option Nat
  completed : Bool
  created_at : Nat
  updated_at : Nat
  user_id : String
deriving Repr, DecidableEq

/-- A token of the PCRE fragment the model covers: a literal character or the
`.` wildcard. `get_tasks` hands the raw search string to MongoDB as a
`$regex` pattern; this fragment is faithful for patterns whose only
metacharacter is `.`. -/
inductive RTok where
  | lit (c : Char)
  | dot
deriving Repr, DecidableEq

/-- Case-insensitive single-character comparison (the `$options: "i"` flag). -/
def charMatchCI (a b : Char) : Bool := a.toLower == b.toLower

/-- One pattern token against one character; PCRE `.` matches any character
except a newline. -/
def tokMatches : RTok → Char → Bool
  | .lit a, c => charMatchCI a c
  | .dot, c => !(c == '\n')

/-- Does the pattern match a prefix of the text? -/
def matchesAt : List RTok → List Char → Bool
  | [], _ => true
  | _ :: _, [] => false
  | tok :: ps, c :: cs => tokMatches tok c && matchesAt ps cs

/-- Unanchored regex search, as `$regex` performs: the pattern matches starting
at some position of the text. -/
def regexFind (p : List RTok) : List Char → Bool
  | [] => matchesAt p []
  | c :: cs => matchesAt p (c :: cs) || regexFind p cs

/-- The search string read as a regex pattern: `.` is the wildcard, every other
character a literal (the fragment of PCRE this model covers). -/
def parseSearchRegex (s : String) : List RTok :=
  s.data.map (fun c => if c == '.' then RTok.dot else RTok.lit c)

/-- Characters that are metacharacters of PCRE; a search string free of them is
matched purely literally by `$regex`. -/
def isRegexMetachar (c : Char) : Bool :=
  c == '.' || c == '^' || c == '$' || c == '*' || c == '+' || c == '?' ||
  c == '(' || c == ')' || c == '[' || c == ']' || c == '\x7b' || c == '\x7d' ||
  c == '|' || c == '\\'

/-- Does the pattern, read as literal characters, match a prefix of the text
case-insensitively? (Spec-side auxiliary.) -/
def isPrefixCI : List Char → List Char → Bool
  | [], _ => true
  | _ :: _, [] => false
  | a :: as, b :: bs => charMatchCI a b && isPrefixCI as bs

/-- Literal case-insensitive substring search. (Spec-side auxiliary.) -/
def isSubstrCI (needle : List Char) : List Char → Bool
  | [] => isPrefixCI needle []
  | c :: cs => isPrefixCI needle (c :: cs) || isSubstrCI needle cs

/-- The spec's words for the search ("case-insensitive substring match on
title/description"): `needle` occurs in `hay` as a literal substring, ignoring
case. Stated from the spec to be compared with the source's `$regex` query. -/
def specContainsCI (hay needle : String) : Bool :=
  isSubstrCI needle.data hay.data

/-- The MongoDB query document built by `get_tasks` (server.py lines 267-275),
as a predicate on a task document: owner equality, optional completion
equality, and — only when the search string is truthy, i.e. non-empty — an
`$or` of two case-insensitive `$regex` matches on title and description. -/
def taskMatchesQuery (uid : String) (completed : Option Bool)
    (search : Option String) (t : TaskDoc) : Bool :=
  t.user_id == uid &&
  (match completed with
   | some b => t.completed == b
   | none => true) &&
  (match search with
   | some s =>
     if s.isEmpty then true
     else regexFind (parseSearchRegex s) t.title.data ||
          regexFind (parseSearchRegex s) t.description.data
   | none => true)

/-- Ascending comparison on the resolved sort field. MongoDB orders missing /
null `due_date` values before numeric ones. -/
def fieldLe (field : String) (a b : TaskDoc) : Bool :=
  if field == "title" then a.title < b.title || a.title == b.title
  else if field == "updated_at" then a.updated_at ≤ b.updated_at
  else if field == "due_date" then
    match a.due_date, b.due_date with
    | none, _ => true
    | some _, none => false
    | some x, some y => x ≤ y
  else a.created_at ≤ b.created_at

/-- Insert into a sorted list, keeping `le`-order. -/
def sortInsert (le : TaskDoc → TaskDoc → Bool) (t : TaskDoc) :
    List TaskDoc → List TaskDoc
  | [] => [t]
  | u :: us => if le t u then t :: u :: us else u :: sortInsert le t us

/-- Sort by `le` (models the cursor's `.sort(sort_field, sort_order)`; the
claims below depend only on membership, never on the order produced). -/
def sortTasks (le : TaskDoc → TaskDoc → Bool) : List TaskDoc → List TaskDoc
  | [] => []
  | t :: ts => sortInsert le t (sortTasks le ts)

/-- `get_tasks` (server.py lines 259-294): build the query, resolve the sort
field (whitelist, falling back to `created_at`) and direction (`desc` reverses
the comparison), then `find(query).sort(...).to_list(1000)`. -/
def get_tasks (uid : String) (completed : Option Bool) (search : Option String)
    (sort_by order : String) (db : List TaskDoc) : List TaskDoc :=
  let sort_field :=
    if sort_by == "created_at" || sort_by == "updated_at" ||
       sort_by == "due_date" || sort_by == "title" then sort_by else "created_at"
  let le := fun a b =>
    if order == "desc" then fieldLe sort_field b a else fieldLe sort_field a b
  (sortTasks le (db.filter (taskMatchesQuery uid completed search))).take 1000

/-- `get_task` (server.py lines 296-314). Everything runs inside a
`try ... except Exception`: a malformed id (`ObjectId` raising) yields 400
"Invalid task ID" — and so does a missing/foreign task, because the
`HTTPException(404, "Task not found")` raised inside the `try` is itself an
`Exception` and is caught and replaced by the blanket handler. -/
def get_task (task_id uid : String) (db : List TaskDoc) :
    Except HttpError TaskDoc :=
  if isValidObjectId task_id then
    match db.find? (fun t => t.oid == task_id && t.user_id == uid) with
    | none => .error ⟨400, "Invalid task ID"⟩
    | some t => .ok t
  else .error ⟨400, "Invalid task ID"⟩

/-- The `TaskUpdate` request model (server.py lines 159-163): every field
optional, defaulting to `None`. -/
structure TaskUpdate where
  title : Option String
  description : Option String
  due_date : Option Nat
  completed : Option Bool
deriving Repr, DecidableEq

/-- A field of the JSON body of a `PUT /tasks/{id}` request: absent from the
body, present with the JSON `null` value, or present with a proper value. -/
inductive JsonField (α : Type) where
  | absent
  | null
  | value (v : α)
deriving Repr, DecidableEq

/-- Pydantic's parsing of an `Optional[X] = None` model field: an absent field
and an explicit `null` both come out as `None`. -/
def parseOptField {α : Type} : JsonField α → Option α
  | .absent => none
  | .null => none
  | .value v => some v

/-- Parse the four fields of a `PUT /tasks/{id}` body into a `TaskUpdate`. -/
def parseTaskUpdate (title description : JsonField String)
    (due_date : JsonField Nat) (completed : JsonField Bool) : TaskUpdate :=
  { title := parseOptField title, description := parseOptField description
    due_date := parseOptField due_date, completed := parseOptField completed }

/-- The effect of `update_one`'s `$set` with the `update_data` dict built in
`update_task` (server.py lines 320-330): each field is written only when the
corresponding `TaskUpdate` field `is not None`; `updated_at` is always
written. -/
def applySet (t : TaskDoc) (u : TaskUpdate) (now : Nat) : TaskDoc :=
  { t with
    title := u.title.getD t.title
    description := u.description.getD t.description
    due_date := match u.due_date with
                | some d => some d
                | none => t.due_date
    completed := u.completed.getD t.completed
    updated_at := now }

/-- `update_one(filter, ...)`: rewrite the first document matching the filter,
returning the new collection and the matched count (0 or 1). -/
def updateOneTask (p : TaskDoc → Bool) (f : TaskDoc → TaskDoc) :
    List TaskDoc → List TaskDoc × Nat
  | [] => ([], 0)
  | t :: ts =>
    if p t then (f t :: ts, 1)
    else
      let r := updateOneTask p f ts
      (t :: r.fst, r.snd)

/-- `delete_one(filter)`: remove the first document matching the filter,
returning the new collection and the deleted count (0 or 1). -/
def deleteOneTask (p : TaskDoc → Bool) :
    List TaskDoc → List TaskDoc × Nat
  | [] => ([], 0)
  | t :: ts =>
    if p t then (ts, 1)
    else
      let r := deleteOneTask p ts
      (t :: r.fst, r.snd)

/-- The ownership-scoped filter `{"_id": ObjectId(task_id), "user_id": uid}`. -/
def taskFilter (task_id uid : String) (t : TaskDoc) : Bool :=
  t.oid == task_id && t.user_id == uid

/-- `update_task` (server.py lines 316-353). Inside `try ... except Exception`:
a malformed id yields 400, and a zero matched count raises
`HTTPException(404, "Task not found")` which the blanket handler catches and
replaces with 400 "Invalid task ID". On a match the `$set` is applied and the
document re-fetched by `_id` alone. Returns the outcome with the post-request
collection. -/
def update_task (task_id uid : String) (u : TaskUpdate) (now : Nat)
    (db : List TaskDoc) : Except HttpError TaskDoc × List TaskDoc :=
  if isValidObjectId task_id then
    let r := updateOneTask (taskFilter task_id uid) (fun t => applySet t u now) db
    if r.snd == 0 then (.error ⟨400, "Invalid task ID"⟩, r.fst)
    else
      match r.fst.find? (fun t => t.oid == task_id) with
      | some t2 => (.ok t2, r.fst)
      | none => (.error ⟨400, "Invalid task ID"⟩, r.fst)
  else (.error ⟨400, "Invalid task ID"⟩, db)

/-- `delete_task` (server.py lines 355-363). Same blanket `except Exception`:
malformed id → 400, and the `HTTPException(404, "Task not found")` raised on a
zero deleted count is caught and replaced by 400 "Invalid task ID". -/
def delete_task (task_id uid : String) (db : List TaskDoc) :
    Except HttpError String × List TaskDoc :=
  if isValidObjectId task_id then
    let r := deleteOneTask (taskFilter task_id uid) db
    if r.snd == 0 then (.error ⟨400, "Invalid task ID"⟩, r.fst)
    else (.ok "Task deleted successfully", r.fst)
  else (.error ⟨400, "Invalid task ID"⟩, db)

/-! ### Concrete example data shared by the evaluation theorems -/

/-- A well-formed ObjectId string for the first user. -/
def aliceId : String := "aaaaaaaaaaaaaaaa00000001"

/-- A well-formed ObjectId string for a second user. -/
def bobId : String := "bbbbbbbbbbbbbbbb00000002"

/-- A well-formed ObjectId string for Alice's task. -/
def aliceTaskOid : String := "cccccccccccccccc00000003"

/-- A task created by Alice. -/
def aliceTask : TaskDoc :=
  { oid := aliceTaskOid, title := "Write documentation"
    description := "about the api", due_date := none, completed := false
    created_at := 10, updated_at := 10, user_id := aliceId }

/-- A `tasks` collection holding just Alice's task. -/
def exDb : List TaskDoc := [aliceTask]

/-- A password of 25 three-byte characters: 75 UTF-8 bytes, over the 72-byte
bcrypt limit, yet only 25 characters long. -/
def longMultibytePassword : String := String.mk (List.replicate 25 'あ')

/-! ### Helper lemmas -/

/-- `updateOneTask` on a collection whose first filter match is `t` rewrites
exactly `t`. -/
theorem updateOneTask_append (p : TaskDoc → Bool) (f : TaskDoc → TaskDoc)
    (pre post : List TaskDoc) (t : TaskDoc)
    (hpre : ∀ t2 ∈ pre, p t2 = false) (hp : p t = true) :
    updateOneTask p f (pre ++ t :: post) = (pre ++ f t :: post, 1) := by
  induction pre with
  | nil => simp [updateOneTask, hp]
  | cons a as ih =>
    have ha : p a = false := hpre a (by simp)
    have ih2 := ih (fun x hx => hpre x (by simp [hx]))
    simp [updateOneTask, ha, ih2]

/-- `find?` on a collection whose prefix fails the predicate returns the head
of the rest when it satisfies it. -/
theorem find?_append_first (q : TaskDoc → Bool) (pre post : List TaskDoc)
    (t : TaskDoc) (hpre : ∀ t2 ∈ pre, q t2 = false) (hq : q t = true) :
    (pre ++ t :: post).find? q = some t := by
  induction pre with
  | nil => simp [List.find?_cons, hq]
  | cons a as ih =>
    have ha : q a = false := hpre a (by simp)
    have ih2 := ih (fun x hx => hpre x (by simp [hx]))
    simp [List.find?_cons, ha, ih2]

/-- Membership through `sortInsert`. -/
theorem mem_sortInsert (le : TaskDoc → TaskDoc → Bool) (t a : TaskDoc)
    (l : List TaskDoc) : a ∈ sortInsert le t l ↔ a = t ∨ a ∈ l := by
  induction l with
  | nil => simp [sortInsert]
  | cons u us ih =>
    by_cases h : le t u
    · simp [sortInsert, h]
    · simp [sortInsert, h, ih]
      tauto

/-- Sorting does not change membership. -/
theorem mem_sortTasks (le : TaskDoc → TaskDoc → Bool) (a : TaskDoc)
    (l : List TaskDoc) : a ∈ sortTasks le l ↔ a ∈ l := by
  induction l with
  | nil => simp [sortTasks]
  | cons t ts ih => simp [sortTasks, mem_sortInsert, ih]

/-- Sorting does not change the length. -/
theorem length_sortTasks (le : TaskDoc → TaskDoc → Bool) (l : List TaskDoc) :
    (sortTasks le l).length = l.length := by
  induction l with
  | nil => rfl
  | cons t ts ih =>
    have hins : ∀ (u : TaskDoc) (m : List TaskDoc),
        (sortInsert le u m).length = m.length + 1 := by
      intro u m
      induction m with
      | nil => rfl
      | cons v vs ihm => by_cases h : le u v <;> simp [sortInsert, h, ihm]
    simp [sortTasks, hins, ih]

/-- A pattern of literal tokens matches a prefix exactly when the characters
agree case-insensitively. -/
theorem matchesAt_map_lit (p text : List Char) :
    matchesAt (p.map RTok.lit) text = isPrefixCI p text := by
  induction p generalizing text with
  | nil => cases text <;> rfl
  | cons a as ih =>
    cases text with
    | nil => rfl
    | cons b bs => simp [matchesAt, isPrefixCI, tokMatches, ih]

/-- Unanchored search with a purely literal pattern is literal substring
search. -/
theorem regexFind_map_lit (p text : List Char) :
    regexFind (p.map RTok.lit) text = isSubstrCI p text := by
  induction text with
  | nil => simp [regexFind, isSubstrCI, matchesAt_map_lit]
  | cons c cs ih => simp [regexFind, isSubstrCI, matchesAt_map_lit, ih]

/-- A search string free of regex metacharacters parses to literal tokens
only. -/
theorem parseSearchRegex_no_meta (s : String)
    (h : s.data.all (fun c => !(isRegexMetachar c)) = true) :
    parseSearchRegex s = s.data.map RTok.lit := by
  unfold parseSearchRegex
  apply List.map_congr_left
  intro c hc
  have hm : isRegexMetachar c = false := by
    have := List.all_eq_true.mp h c hc
    simpa using this
  have hdot : (c == '.') = false := by
    simp only [isRegexMetachar, Bool.or_eq_false_iff] at hm
    exact hm.1.1.1.1.1.1.1.1.1.1.1.1.1
  simp [hdot]

/-! ### Claim theorems -/

/-- C1: The list operation scoped to the owner returns a created task and the
list operation scoped to another user never does; but the direct fetch of the
task by its well-formed identifier as a different authenticated user produces
400 "Invalid task ID", NOT the claimed "not found" outcome: the
`HTTPException(404, "Task not found")` raised inside `get_task`'s `try` block
is caught by the blanket `except Exception` and replaced (evaluation of the
model at the failing input). -/
theorem c1_cross_user_fetch_yields_400_not_404 :
    aliceTask ∈ get_tasks aliceId none none "created_at" "desc" exDb ∧
    aliceTask ∉ get_tasks bobId none none "created_at" "desc" exDb ∧
    isValidObjectId aliceTaskOid = true ∧
    get_task aliceTaskOid bobId exDb = .error ⟨400, "Invalid task ID"⟩ ∧
    get_task aliceTaskOid bobId exDb ≠ .error ⟨404, "Task not found"⟩ ∧
    get_task aliceTaskOid bobId exDb ≠ .error ⟨403, "Forbidden"⟩ := by
  decide

/-- C2: An update or delete on a well-formed task id matching no record owned
by the caller — another user's task, or an already-deleted task on the second
delete — produces 400 "Invalid task ID", NOT the claimed 404: the raised
`HTTPException(404)` is caught by the blanket `except Exception` in
`update_task`/`delete_task` and replaced (evaluation at the failing inputs). -/
theorem c2_missing_task_update_delete_yield_400_not_404 :
    (update_task aliceTaskOid bobId ⟨none, none, none, some true⟩ 20 exDb).fst
      = .error ⟨400, "Invalid task ID"⟩ ∧
    (delete_task aliceTaskOid bobId exDb).fst = .error ⟨400, "Invalid task ID"⟩ ∧
    (delete_task aliceTaskOid aliceId exDb).fst = .ok "Task deleted successfully" ∧
    (delete_task aliceTaskOid aliceId
        (delete_task aliceTaskOid aliceId exDb).snd).fst
      = .error ⟨400, "Invalid task ID"⟩ ∧
    (delete_task aliceTaskOid aliceId
        (delete_task aliceTaskOid aliceId exDb).snd).fst
      ≠ .error ⟨404, "Task not found"⟩ := by
  decide

/-- C3 counterexample: a 75-byte password of 25 three-byte characters exceeds
72 bytes, yet the string handed to the underlying hash algorithm still has 75
UTF-8 bytes — `password[:72]` slices characters, not bytes — refuting "both
operations truncate it to 72 bytes". -/
theorem c3_slice_is_chars_not_bytes_counterexample :
    72 < utf8Len longMultibytePassword ∧
    get_password_hash
        (fun s => if 72 < utf8Len s then "still-over-72-bytes" else "at-most-72-bytes")
        longMultibytePassword = "still-over-72-bytes" ∧
    verify_password
        (fun s _ => decide (utf8Len s = 75)) longMultibytePassword "" = true := by
  decide

/-- C3 (amended): for a password whose UTF-8 encoding exceeds 72 bytes, both
sites truncate it to the first 72 CHARACTERS (`password[:72]`), identically,
so verifying a long password against its own hash succeeds whenever the
underlying verifier accepts the underlying hasher's output for equal inputs. -/
theorem c3_consistent_char_truncation_roundtrip
    (bhash : String → String) (bverify : String → String → Bool)
    (hconsist : ∀ s, bverify s (bhash s) = true)
    (p : String) (hlong : 72 < utf8Len p) :
    get_password_hash bhash p = bhash (pySlice p 72) ∧
    verify_password bverify p (get_password_hash bhash p) = true := by
  constructor
  · simp [get_password_hash, hlong]
  · simp [get_password_hash, verify_password, hlong, hconsist]

/-- C3 witness: the amended theorem applied at the concrete 75-byte password
with the identity hasher and equality verifier. -/
theorem c3_consistent_char_truncation_roundtrip_witness :
    get_password_hash (fun s => s) longMultibytePassword
      = (fun s => s) (pySlice longMultibytePassword 72) ∧
    verify_password (fun s h => s == h) longMultibytePassword
      (get_password_hash (fun s => s) longMultibytePassword) = true :=
  c3_consistent_char_truncation_roundtrip (fun s => s) (fun s h => s == h)
    (fun s => by simp) longMultibytePassword (by decide)

/-- C4: a token issued at time `T` with the configured default 30-minute TTL
decodes successfully at `T + 29min`, fails at `T + 31min` (and the gate then
answers 401 "Invalid token"), and fails under any other signing key:
verification checks both signature authenticity and expiry. -/
theorem c4_token_ttl_and_signature (T : Nat) (key : String) (sub : Option String) :
    jwtDecode (create_access_token sub (some (JWT_ACCESS_TOKEN_EXPIRE_MINUTES * 60)) T key)
        key (T + 29 * 60) = .ok ⟨sub, T + 30 * 60⟩ ∧
    jwtDecode (create_access_token sub (some (JWT_ACCESS_TOKEN_EXPIRE_MINUTES * 60)) T key)
        key (T + 31 * 60) = .error ∧
    (∀ users : List UserDoc,
      get_current_user
          (create_access_token sub (some (JWT_ACCESS_TOKEN_EXPIRE_MINUTES * 60)) T key)
          key (T + 31 * 60) users = .httpError ⟨401, "Invalid token"⟩) ∧
    ∀ k2 : String, k2 ≠ key →
      jwtDecode (create_access_token sub (some (JWT_ACCESS_TOKEN_EXPIRE_MINUTES * 60)) T key)
          k2 (T + 29 * 60) = .error := by
  refine ⟨?_, ?_, ?_, ?_⟩
  · simp [jwtDecode, create_access_token, JWT_ACCESS_TOKEN_EXPIRE_MINUTES]
  · simp [jwtDecode, create_access_token, JWT_ACCESS_TOKEN_EXPIRE_MINUTES]
  · intro users
    simp [get_current_user, jwtDecode, create_access_token,
      JWT_ACCESS_TOKEN_EXPIRE_MINUTES]
  · intro k2 hk
    have : (key == k2) = false := by simpa using fun h => hk h.symm
    simp [jwtDecode, create_access_token, this]

/-- C4 witness: the theorem at `T = 0`, key `"k"`, subject `"u"`, with the
signature conjunct instantiated at the distinct key `"x"`. -/
theorem c4_token_ttl_and_signature_witness :
    jwtDecode (create_access_token (some "u") (some (JWT_ACCESS_TOKEN_EXPIRE_MINUTES * 60)) 0 "k")
        "k" (0 + 29 * 60) = .ok ⟨some "u", 0 + 30 * 60⟩ ∧
    jwtDecode (create_access_token (some "u") (some (JWT_ACCESS_TOKEN_EXPIRE_MINUTES * 60)) 0 "k")
        "k" (0 + 31 * 60) = .error ∧
    get_current_user
        (create_access_token (some "u") (some (JWT_ACCESS_TOKEN_EXPIRE_MINUTES * 60)) 0 "k")
        "k" (0 + 31 * 60) [] = .httpError ⟨401, "Invalid token"⟩ ∧
    jwtDecode (create_access_token (some "u") (some (JWT_ACCESS_TOKEN_EXPIRE_MINUTES * 60)) 0 "k")
        "x" (0 + 29 * 60) = .error := by
  have h := c4_token_ttl_and_signature 0 "k" (some "u")
  exact ⟨h.1, h.2.1, h.2.2.1 [], h.2.2.2 "x" (by decide)⟩

/-- C5: a registration whose email already exists in the `users` collection
fails with 400 "Email already registered" and returns the collection
completely unchanged (the duplicate check runs before any write). -/
theorem c5_duplicate_email_conflict_store_unchanged
    (bhash : String → String) (req : UserCreate) (newOid : String)
    (now : Nat) (key : String) (db : List UserDoc)
    (h : ∃ u ∈ db, u.email = req.email) :
    register bhash req newOid now key db
      = (.error ⟨400, "Email already registered"⟩, db) := by
  obtain ⟨u, hu, heq⟩ := h
  have hsome : (db.find? fun v => v.email == req.email).isSome :=
    List.find?_isSome.mpr ⟨u, hu, by simp [heq]⟩
  cases hfind : db.find? (fun v => v.email == req.email) with
  | none => rw [hfind] at hsome; simp at hsome
  | some w => simp [register, hfind]

/-- C5 witness: registering Alice's email a second time. -/
theorem c5_duplicate_email_conflict_store_unchanged_witness :
    register (fun s => s) ⟨"alice@example.com", "pw2", "Alice II"⟩ bobId 50 "k"
        [⟨aliceId, "alice@example.com", "Alice", "pw-hash", 1⟩]
      = (.error ⟨400, "Email already registered"⟩,
         [⟨aliceId, "alice@example.com", "Alice", "pw-hash", 1⟩]) :=
  c5_duplicate_email_conflict_store_unchanged (fun s => s)
    ⟨"alice@example.com", "pw2", "Alice II"⟩ bobId 50 "k"
    [⟨aliceId, "alice@example.com", "Alice", "pw-hash", 1⟩]
    ⟨⟨aliceId, "alice@example.com", "Alice", "pw-hash", 1⟩, by simp, rfl⟩

/-- C6: whenever no stored user carries the requested email, or every stored
user with that email fails the password check, login fails with the single
undifferentiated 401 "Invalid email or password" — the same outcome in both
cases, revealing nothing about whether the email exists. -/
theorem c6_login_single_undifferentiated_error
    (bverify : String → String → Bool) (req : UserLogin) (now : Nat)
    (key : String) (db : List UserDoc)
    (h : ∀ u ∈ db, u.email = req.email →
      verify_password bverify req.password u.hashed_password = false) :
    login bverify req now key db = .error ⟨401, "Invalid email or password"⟩ := by
  cases hfind : db.find? (fun u => u.email == req.email) with
  | none => simp [login, hfind]
  | some u =>
    have hmem : u ∈ db := List.mem_of_find?_eq_some hfind
    have heq : u.email = req.email := by
      have := List.find?_some hfind
      simpa using this
    simp [login, hfind, h u hmem heq]

/-- C6 witness: the theorem applied twice — once at a store without the email
(absent-user case) and once at a store whose user fails the password check —
both yielding the identical 401 error. -/
theorem c6_login_single_undifferentiated_error_witness :
    login (fun s h => s == h) ⟨"ghost@example.com", "pw"⟩ 50 "k" []
      = .error ⟨401, "Invalid email or password"⟩ ∧
    login (fun s h => s == h) ⟨"alice@example.com", "wrong"⟩ 50 "k"
        [⟨aliceId, "alice@example.com", "Alice", "right", 1⟩]
      = .error ⟨401, "Invalid email or password"⟩ :=
  ⟨c6_login_single_undifferentiated_error (fun s h => s == h)
      ⟨"ghost@example.com", "pw"⟩ 50 "k" [] (by simp),
   c6_login_single_undifferentiated_error (fun s h => s == h)
      ⟨"alice@example.com", "wrong"⟩ 50 "k"
      [⟨aliceId, "alice@example.com", "Alice", "right", 1⟩]
      (by intro u hu _; simp at hu; subst hu; decide)⟩

/-- C9: a `PUT /tasks/{id}` body field given as explicit JSON `null` parses to
the same `TaskUpdate` as an absent field, is therefore excluded from the
`$set`, and a due date that is set can never be cleared back to "no due date"
by any update. -/
theorem c9_null_field_treated_as_absent
    (jt jd : JsonField String) (jc : JsonField Bool)
    (t : TaskDoc) (now d : Nat) (h : t.due_date = some d) :
    parseTaskUpdate jt jd JsonField.null jc
      = parseTaskUpdate jt jd JsonField.absent jc ∧
    (applySet t (parseTaskUpdate jt jd JsonField.null jc) now).due_date = some d ∧
    ∀ u : TaskUpdate, (applySet t u now).due_date ≠ none := by
  refine ⟨rfl, ?_, ?_⟩
  · simp [applySet, parseTaskUpdate, parseOptField, h]
  · intro u
    cases hu : u.due_date <;> simp [applySet, hu, h]

/-- C9 witness: the theorem at Alice's task with the due date set to 99 and a
body that nulls every field. -/
theorem c9_null_field_treated_as_absent_witness :
    parseTaskUpdate JsonField.null JsonField.null JsonField.null JsonField.null
      = parseTaskUpdate JsonField.null JsonField.null JsonField.absent JsonField.null ∧
    (applySet { aliceTask with due_date := some 99 }
        (parseTaskUpdate JsonField.null JsonField.null JsonField.null JsonField.null)
        20).due_date = some 99 ∧
    ∀ u : TaskUpdate,
      (applySet { aliceTask with due_date := some 99 } u 20).due_date ≠ none :=
  c9_null_field_treated_as_absent JsonField.null JsonField.null JsonField.null
    { aliceTask with due_date := some 99 } 20 99 rfl

/-- C7: a partial update whose filter matches a task owned by the caller
changes exactly the supplied fields: every unsupplied field keeps its previous
value, while `updated_at` is always refreshed to `now` — for every update body,
including the empty one. -/
theorem c7_partial_update_frame
    (pre post : List TaskDoc) (t : TaskDoc) (u : TaskUpdate) (now : Nat)
    (uid : String)
    (hvalid : isValidObjectId t.oid = true)
    (huser : t.user_id = uid)
    (hpre : ∀ t2 ∈ pre, t2.oid ≠ t.oid) :
    (update_task t.oid uid u now (pre ++ t :: post)).fst = .ok (applySet t u now) ∧
    (u.title = none → (applySet t u now).title = t.title) ∧
    (u.description = none → (applySet t u now).description = t.description) ∧
    (u.due_date = none → (applySet t u now).due_date = t.due_date) ∧
    (u.completed = none → (applySet t u now).completed = t.completed) ∧
    (applySet t u now).updated_at = now ∧
    (applySet t u now).created_at = t.created_at ∧
    (applySet t u now).user_id = t.user_id ∧
    (applySet t u now).oid = t.oid := by
  have hfpre : ∀ t2 ∈ pre, taskFilter t.oid uid t2 = false := by
    intro t2 h2
    simp [taskFilter, hpre t2 h2]
  have hft : taskFilter t.oid uid t = true := by simp [taskFilter, huser]
  have hupd := updateOneTask_append (taskFilter t.oid uid)
    (fun x => applySet x u now) pre post t hfpre hft
  have hqpre : ∀ t2 ∈ pre, ((fun x : TaskDoc => x.oid == t.oid) t2) = false := by
    intro t2 h2
    simpa using hpre t2 h2
  have hfind := find?_append_first (fun x => x.oid == t.oid) pre post
    (applySet t u now) hqpre (by simp [applySet])
  refine ⟨?_, ?_, ?_, ?_, ?_, rfl, rfl, rfl, rfl⟩
  · simp [update_task, hvalid, hupd, hfind]
  · intro h
    simp [applySet, h]
  · intro h
    simp [applySet, h]
  · intro h
    simp [applySet, h]
  · intro h
    simp [applySet, h]

/-- C7 witness: the frame theorem at Alice's task with a body supplying only
`completed`. -/
theorem c7_partial_update_frame_witness :
    (update_task aliceTask.oid aliceId ⟨none, none, none, some true⟩ 20
        ([] ++ aliceTask :: [])).fst
      = .ok (applySet aliceTask ⟨none, none, none, some true⟩ 20) ∧
    ((⟨none, none, none, some true⟩ : TaskUpdate).title = none →
      (applySet aliceTask ⟨none, none, none, some true⟩ 20).title = aliceTask.title) ∧
    ((⟨none, none, none, some true⟩ : TaskUpdate).description = none →
      (applySet aliceTask ⟨none, none, none, some true⟩ 20).description
        = aliceTask.description) ∧
    ((⟨none, none, none, some true⟩ : TaskUpdate).due_date = none →
      (applySet aliceTask ⟨none, none, none, some true⟩ 20).due_date
        = aliceTask.due_date) ∧
    ((⟨none, none, none, some true⟩ : TaskUpdate).completed = none →
      (applySet aliceTask ⟨none, none, none, some true⟩ 20).completed
        = aliceTask.completed) ∧
    (applySet aliceTask ⟨none, none, none, some true⟩ 20).updated_at = 20 ∧
    (applySet aliceTask ⟨none, none, none, some true⟩ 20).created_at
      = aliceTask.created_at ∧
    (applySet aliceTask ⟨none, none, none, some true⟩ 20).user_id
      = aliceTask.user_id ∧
    (applySet aliceTask ⟨none, none, none, some true⟩ 20).oid = aliceTask.oid :=
  c7_partial_update_frame [] [] aliceTask ⟨none, none, none, some true⟩ 20 aliceId
    (by decide) rfl (by simp)

/-- Membership in the result of `get_tasks` is membership in the collection
plus the query, whenever the collection is under the 1000-record cap. -/
theorem mem_get_tasks (uid : String) (completed : Option Bool)
    (search : Option String) (sort_by order : String) (db : List TaskDoc)
    (t : TaskDoc) (hlen : db.length ≤ 1000) :
    t ∈ get_tasks uid completed search sort_by order db ↔
      t ∈ db ∧ taskMatchesQuery uid completed search t = true := by
  have h1 : (db.filter (taskMatchesQuery uid completed search)).length ≤ 1000 :=
    le_trans (List.length_filter_le _ _) hlen
  unfold get_tasks
  simp only []
  rw [List.take_of_length_le (by rw [length_sortTasks]; exact h1),
    mem_sortTasks, List.mem_filter]

/-- C8 counterexample: the search string is fed to MongoDB as a `$regex`
pattern, not matched literally — searching for "." returns Alice's task even
though neither its title nor its description contains "." as a substring. -/
theorem c8_dot_search_counterexample :
    aliceTask ∈ get_tasks aliceId none (some ".") "created_at" "desc" exDb ∧
    specContainsCI aliceTask.title "." = false ∧
    specContainsCI aliceTask.description "." = false := by
  decide

/-- C8 (amended): the non-empty search string is interpreted as a
case-insensitive regular expression over title and description; when it
contains no regex metacharacter this coincides with case-insensitive literal
substring search, and (below the 1000-record cap) the listed tasks are exactly
the current user's tasks so matching. -/
theorem c8_metafree_search_is_ci_substring
    (uid s sort_by order : String) (db : List TaskDoc) (t : TaskDoc)
    (hne : s ≠ "")
    (hmeta : s.data.all (fun c => !(isRegexMetachar c)) = true)
    (hlen : db.length ≤ 1000) :
    t ∈ get_tasks uid none (some s) sort_by order db ↔
      t ∈ db ∧ t.user_id = uid ∧
        (specContainsCI t.title s = true ∨ specContainsCI t.description s = true) := by
  have hpat : parseSearchRegex s = s.data.map RTok.lit :=
    parseSearchRegex_no_meta s hmeta
  have hempty : s.isEmpty = false := by
    cases he : s.isEmpty
    · rfl
    · exact absurd ((String.isEmpty_iff s).mp he) hne
  rw [mem_get_tasks uid none (some s) sort_by order db t hlen]
  simp [taskMatchesQuery, hempty, hpat, regexFind_map_lit, specContainsCI,
    and_assoc]

/-- C8 witness: the amended theorem at the spec's own scenario — searching
"doc" against a task titled "Write documentation". -/
theorem c8_metafree_search_is_ci_substring_witness :
    aliceTask ∈ get_tasks aliceId none (some "doc") "created_at" "desc" exDb ↔
      aliceTask ∈ exDb ∧ aliceTask.user_id = aliceId ∧
        (specContainsCI aliceTask.title "doc" = true ∨
         specContainsCI aliceTask.description "doc" = true) :=
  c8_metafree_search_is_ci_substring aliceId "doc" "created_at" "desc" exDb
    aliceTask (by decide) (by decide) (by decide)

/-- C10: a correctly signed, unexpired token whose subject is not an
ObjectId-shaped string makes `ObjectId(user_id)` raise OUTSIDE the guarded
`try` block, so the gate neither answers 401 "Invalid token" nor 401 "User not
found": the exception escapes the handler as an unhandled server error. -/
theorem c10_non_objectid_subject_escapes_gate
    (key : String) (T ttl now : Nat) (sub : String) (users : List UserDoc)
    (hexp : now < T + ttl) (hsub : isValidObjectId sub = false) :
    get_current_user (create_access_token (some sub) (some ttl) T key) key now users
      = .unhandledException ∧
    ∀ e : HttpError,
      get_current_user (create_access_token (some sub) (some ttl) T key) key now users
        ≠ .httpError e := by
  have hle : ¬ (T + ttl ≤ now) := by omega
  constructor
  · simp [get_current_user, jwtDecode, create_access_token, hle, hsub]
  · intro e
    simp [get_current_user, jwtDecode, create_access_token, hle, hsub]

/-- C10 witness: the theorem at the fresh token for subject
`"not-an-objectid"` checked one minute after issue. -/
theorem c10_non_objectid_subject_escapes_gate_witness :
    get_current_user (create_access_token (some "not-an-objectid") (some 1800) 0 "k")
        "k" 60 [] = .unhandledException ∧
    ∀ e : HttpError,
      get_current_user (create_access_token (some "not-an-objectid") (some 1800) 0 "k")
          "k" 60 [] ≠ .httpError e :=
  c10_non_objectid_subject_escapes_gate "k" 0 1800 60 "not-an-objectid" []
    (by decide) (by decide)

end TaskSync
